import Mathlib

/-!
# Metro-rail ticketing backend: shallow embedding

Shallow embedding of the trip-lifecycle / balance-ledger subsystem of the
metro-rail ticketing Node.js backend, translated from:

  * src/models/Trip.js   (Trip schema + methods, User schema + methods)
  * src/routes/fares.js  (fare routes and the trip route handlers
                          createTrip / useTrip / completeJourney)
  * src/routes/users.js  (depositMoney and its validation)
  * src/unnamed/part_001 (Fare schema + Fare.getFare static)

Conventions:
  * money amounts are rationals (JS numbers used for currency),
  * timestamps are integers (milliseconds since epoch, as in `Date.now()`),
  * Mongo object ids / trip codes are naturals,
  * a Mongo collection is a `List` of documents; `findOne` is `List.find?`,
  * a mongoose `save()` writes the in-memory document back into the
    collection, replacing the document with the same key.
-/

namespace Metro

/-- Trip.status enum: ['created', 'used', 'expired', 'cancelled']. -/
inductive TripStatus
  | created
  | used
  | expired
  | cancelled
  deriving DecidableEq, Repr

/-- Trip.paymentMethod enum: ['balance', 'cash', 'card']. -/
inductive PaymentMethod
  | balance
  | cash
  | card
  deriving DecidableEq, Repr

/-- Trip.paymentStatus enum: ['pending', 'completed', 'failed']. -/
inductive PaymentStatus
  | pending
  | completed
  | failed
  deriving DecidableEq, Repr

/-- Fare.fareType enum: ['regular', 'peak', 'off-peak', 'student', 'senior']. -/
inductive FareType
  | regular
  | peak
  | offPeak
  | student
  | senior
  deriving DecidableEq, Repr

/-- The fields of the User document that the ledger/trip subsystem mutates
(src/models/Trip.js, userSchema). -/
structure User where
  balance : ℚ
  totalTrips : ℕ
  totalExpense : ℚ
  deriving DecidableEq, Repr

/-- The Trip document (src/models/Trip.js, tripSchema). -/
structure Trip where
  tripCode : ℕ
  userId : ℕ
  fromStation : ℕ
  toStation : ℕ
  fare : ℚ
  numberOfPassengers : ℕ
  totalAmount : ℚ
  status : TripStatus
  usedAt : Option ℤ
  expiresAt : ℤ
  journeyStartTime : Option ℤ
  journeyEndTime : Option ℤ
  paymentMethod : PaymentMethod
  paymentStatus : PaymentStatus
  deriving DecidableEq, Repr

/-- The Fare document (src/unnamed/part_001, fareSchema). -/
structure Fare where
  fromStation : ℕ
  toStation : ℕ
  fare : ℚ
  fareType : FareType
  isActive : Bool
  effectiveFrom : ℤ
  effectiveTo : Option ℤ
  deriving DecidableEq, Repr

/-- The shared document store: users keyed by id, trips, fares. -/
structure DB where
  users : List (ℕ × User)
  trips : List Trip
  fares : List Fare
  deriving DecidableEq, Repr

/-- `User.findById`: first user document with the given id. -/
def lookupUser (users : List (ℕ × User)) (uid : ℕ) : Option User :=
  (users.find? (fun p => p.1 == uid)).map (fun p => p.2)

/-- `user.save()`: write the mutated user document back by key. -/
def saveUser (users : List (ℕ × User)) (uid : ℕ) (u : User) :
    List (ℕ × User) :=
  users.map (fun p => if p.1 == uid then (uid, u) else p)

/-- `trip.save()`: write the mutated trip document back by trip code. -/
def saveTrip (trips : List Trip) (t : Trip) : List Trip :=
  trips.map (fun x => if x.tripCode == t.tripCode then t else x)

/-- `userSchema.methods.addBalance` (src/models/Trip.js:331-334):
`this.balance += amount` with no check. -/
def addBalance (u : User) (amount : ℚ) : User :=
  { u with balance := u.balance + amount }

/-- `userSchema.methods.deductBalance` (src/models/Trip.js:337-343):
throws 'Insufficient balance' when `this.balance < amount`, otherwise
`this.balance -= amount` and save.  `none` models the throw (the document
is not saved on that path). -/
def deductBalance (u : User) (amount : ℚ) : Option User :=
  if u.balance < amount then none
  else some { u with balance := u.balance - amount }

/-- `userSchema.methods.updateTripStats` (src/models/Trip.js:324-328):
`totalTrips += 1; totalExpense += tripFare`. -/
def updateTripStats (u : User) (tripFare : ℚ) : User :=
  { u with totalTrips := u.totalTrips + 1
           totalExpense := u.totalExpense + tripFare }

/-! ## Ledger operation sequences

The two balance-mutating operations reachable through the API:
`POST /users/deposit` (validated by `depositValidation`, then
`addBalance`) and the fare debit inside `POST /trips`
(`deductBalance`). -/

/-- One ledger operation on a user's balance. -/
inductive LedgerOp
  | deposit (amount : ℚ)
  | debit (amount : ℚ)
  deriving DecidableEq, Repr

/-- Apply one ledger operation the way the route handlers do:
a Deposit is gated by `depositValidation` (`isFloat({ min: 1 })`,
src/routes/users.js:297-300) and rejected amounts leave the balance
unchanged; a Debit is `deductBalance`, whose throw leaves the document
unsaved. -/
def applyLedgerOp (u : User) (op : LedgerOp) : User :=
  match op with
  | .deposit a => if 1 ≤ a then addBalance u a else u
  | .debit a => (deductBalance u a).getD u

/-- Apply a sequence of ledger operations. -/
def applyLedgerOps (u : User) (ops : List LedgerOp) : User :=
  ops.foldl applyLedgerOp u

/-! ## Fare lookup -/

/-- The match predicate of `fareSchema.statics.getFare`
(src/unnamed/part_001:62-75): same station pair and fare type, `isActive`,
and `$or: [{effectiveTo: null}, {effectiveTo: {$gte: new Date()}}]`.
Nothing in the query compares `effectiveFrom` with the current time. -/
def getFareMatches (f : Fare) (fromS toS : ℕ) (ft : FareType) (now : ℤ) :
    Bool :=
  f.fromStation == fromS && f.toStation == toS && f.fareType == ft &&
    f.isActive &&
    (match f.effectiveTo with
     | none => true
     | some e => now ≤ e)

/-- `Fare.getFare(fromStationId, toStationId, fareType = 'regular')`:
`findOne` over the fares collection with `getFareMatches`. -/
def getFare (fares : List Fare) (fromS toS : ℕ) (ft : FareType)
    (now : ℤ) : Option Fare :=
  fares.find? (fun f => getFareMatches f fromS toS ft now)

/-- The `Fare.findOne` query of the `GET /fares/in-between` handler
(src/routes/fares.js:109-115): station pair, fare type and `isActive`
only — no date condition at all. -/
def findFareInBetween (fares : List Fare) (fromS toS : ℕ)
    (ft : FareType) : Option Fare :=
  fares.find? (fun f =>
    f.fromStation == fromS && f.toStation == toS && f.fareType == ft &&
      f.isActive)

/-! ## Trip lifecycle methods (src/models/Trip.js) -/

/-- The two throw messages of `tripSchema.methods.useTrip`. -/
inductive UseTripErr
  | cannotBeUsed
  | hasExpired
  deriving DecidableEq, Repr

/-- `tripSchema.methods.useTrip` (src/models/Trip.js:95-110).
On `status !== 'created'` it throws; on `expiresAt < new Date()` it
assigns `this.status = 'expired'` in memory and then throws — the
`this.save()` at the end is never reached on either throw path, so the
error constructor carries the (unsaved) in-memory document.  On success
it sets `status = 'used'`, `usedAt` and `journeyStartTime` and saves. -/
def useTrip (t : Trip) (now : ℤ) : Except (UseTripErr × Trip) Trip :=
  if t.status ≠ TripStatus.created then
    Except.error (UseTripErr.cannotBeUsed, t)
  else if t.expiresAt < now then
    Except.error (UseTripErr.hasExpired, { t with status := TripStatus.expired })
  else
    Except.ok { t with status := TripStatus.used
                       usedAt := some now
                       journeyStartTime := some now }

/-- `tripSchema.methods.completeJourney` (src/models/Trip.js:113-120):
throws unless `status === 'used'`; otherwise sets `journeyEndTime` and
saves.  The status field itself is not modified. -/
def completeJourneyMethod (t : Trip) (now : ℤ) : Option Trip :=
  if t.status ≠ TripStatus.used then none
  else some { t with journeyEndTime := some now }

/-- The document written by a successful `completeJourneyMethod`: the
trip with `journeyEndTime` set and every other field unchanged. -/
def completed (t : Trip) (now : ℤ) : Trip :=
  { t with journeyEndTime := some now }

/-- `tripSchema.statics.getValidTrip` (src/models/Trip.js:123-133):
`findOne({ tripCode, status: 'created', expiresAt: { $gt: new Date() } })`. -/
def getValidTrip (trips : List Trip) (code : ℕ) (now : ℤ) : Option Trip :=
  trips.find? (fun t =>
    t.tripCode == code && t.status == TripStatus.created &&
      now < t.expiresAt)

/-- `Trip.findById` — trips are keyed here by `tripCode`, which doubles
as the document id in this embedding. -/
def findTripById (trips : List Trip) (id : ℕ) : Option Trip :=
  trips.find? (fun t => t.tripCode == id)

/-! ## The populated owner document

`getValidTrip` hydrates the trip's owner with an inclusive projection:
`.populate('user', 'fullName phoneNumber')` (src/models/Trip.js:128).
A numeric path excluded by an inclusive projection is `undefined` on the
hydrated document; JS arithmetic on `undefined` yields `NaN`, and the
mongoose Number cast rejects `NaN` when the document is saved, so the
save throws and writes nothing. -/

/-- An in-memory numeric path of a hydrated document: unselected
(`undefined`), `NaN` from arithmetic on an undefined path, or a
number. -/
inductive JsPath
  | undef
  | nan
  | num (q : ℚ)
  deriving DecidableEq, Repr

/-- JS `+` on a possibly-undefined path: `undefined + x` and `NaN + x`
are `NaN`. -/
def jsAddNum (a : JsPath) (q : ℚ) : JsPath :=
  match a with
  | JsPath.num v => JsPath.num (v + q)
  | _ => JsPath.nan

/-- The owner document as hydrated by `getValidTrip`'s populate: the
projection selects only `fullName` and `phoneNumber`, so the counter
paths `totalTrips` and `totalExpense` are unselected regardless of the
stored values. -/
structure PopulatedUser where
  userId : ℕ
  totalTrips : JsPath
  totalExpense : JsPath
  deriving DecidableEq, Repr

/-- Hydrate the owner under the `'fullName phoneNumber'` projection:
both counter paths come out `undefined`. -/
def populateUser (uid : ℕ) : PopulatedUser :=
  { userId := uid, totalTrips := JsPath.undef,
    totalExpense := JsPath.undef }

/-- `updateTripStats` as it actually runs in the redeem route
(src/routes/fares.js:426), i.e. on the populated owner:
`totalTrips += 1; totalExpense += tripFare; save()`.  A `NaN` in a
Number path fails the cast at save time, so the save throws and the
stored user is not written; `none` models that throw. -/
def updateTripStatsPopulated (p : PopulatedUser) (tripFare : ℚ) :
    Option PopulatedUser :=
  let p2 : PopulatedUser :=
    { p with
      totalTrips := jsAddNum p.totalTrips 1
      totalExpense := jsAddNum p.totalExpense tripFare }
  match p2.totalTrips, p2.totalExpense with
  | JsPath.num _, JsPath.num _ => some p2
  | _, _ => none

/-! ## Route handlers -/

/-- 24 hours in milliseconds: `24 * 60 * 60 * 1000`
(src/models/Trip.js:56). -/
def dayMs : ℤ := 24 * 60 * 60 * 1000

/-- Request body of `POST /trips` (src/routes/fares.js:353). -/
structure IssueReq where
  fromStation : ℕ
  toStation : ℕ
  numberOfPassengers : ℕ
  paymentMethod : PaymentMethod
  deriving DecidableEq, Repr

/-- Outcomes of the `createTrip` handler (src/routes/fares.js:346-406). -/
inductive IssueOutcome
  | validationError
  | fareNotFound
  | userMissing
  | insufficientBalance
  | deductThrew (trip : Trip)
  | ok (trip : Trip)
  deriving DecidableEq, Repr

/-- The `createTrip` handler of `POST /trips`
(src/routes/fares.js:346-406), with `createTripValidation`
(src/routes/fares.js:527-541) for the passenger-count bounds:

1. validation: `numberOfPassengers` must be an integer in 1..10;
2. `Fare.getFare(fromStation, toStation)` — fare type defaults to
   'regular'; 404 when absent;
3. `totalAmount = fare.fare * numberOfPassengers`;
4. `User.findById(req.user.id)`;
5. when `paymentMethod === 'balance'` and `user.balance < totalAmount`,
   400 'Insufficient balance';
6. `Trip.create(...)` — status defaults to 'created', `expiresAt` to
   `now + 24h`, `paymentStatus` to 'pending';
7. when `paymentMethod === 'balance'`, `user.deductBalance(totalAmount)`
   (the trip from step 6 persists even if this threw). -/
def createTrip (db : DB) (uid : ℕ) (req : IssueReq) (now : ℤ)
    (newCode : ℕ) : IssueOutcome × DB :=
  if ¬ (1 ≤ req.numberOfPassengers ∧ req.numberOfPassengers ≤ 10) then
    (IssueOutcome.validationError, db)
  else
    match getFare db.fares req.fromStation req.toStation FareType.regular
        now with
    | none => (IssueOutcome.fareNotFound, db)
    | some fare =>
      let totalAmount : ℚ := fare.fare * (req.numberOfPassengers : ℚ)
      match lookupUser db.users uid with
      | none => (IssueOutcome.userMissing, db)
      | some user =>
        if req.paymentMethod = PaymentMethod.balance ∧
            user.balance < totalAmount then
          (IssueOutcome.insufficientBalance, db)
        else
          let trip : Trip :=
            { tripCode := newCode
              userId := uid
              fromStation := req.fromStation
              toStation := req.toStation
              fare := fare.fare
              numberOfPassengers := req.numberOfPassengers
              totalAmount := totalAmount
              status := TripStatus.created
              usedAt := none
              expiresAt := now + dayMs
              journeyStartTime := none
              journeyEndTime := none
              paymentMethod := req.paymentMethod
              paymentStatus := PaymentStatus.pending }
          let db1 : DB := { db with trips := db.trips ++ [trip] }
          if req.paymentMethod = PaymentMethod.balance then
            match deductBalance user totalAmount with
            | none => (IssueOutcome.deductThrew trip, db1)
            | some u2 =>
              (IssueOutcome.ok trip,
                { db1 with users := saveUser db1.users uid u2 })
          else (IssueOutcome.ok trip, db1)

/-- Outcomes of the `useTrip` route handler
(src/routes/fares.js:411-446).  `userMissing` is the TypeError when
populate found no owner; `statsCastError` is the rejected save of the
NaN counters — in both the trip was already saved by `useTrip`. -/
inductive RedeemOutcome
  | notFound
  | tripError (e : UseTripErr)
  | userMissing (trip : Trip)
  | statsCastError (trip : Trip)
  | ok (trip : Trip)
  deriving DecidableEq, Repr

/-- The `useTrip` handler of `POST /trips/use/:tripCode`
(src/routes/fares.js:411-446).  `Trip.getValidTrip` runs at time `now1`;
`trip.useTrip()` re-reads the clock at `now2 ≥ now1`.  A throw from
`trip.useTrip()` is caught and returned as 400 with nothing saved; on
success the trip is saved and then
`trip.user.updateTripStats(trip.totalAmount)` runs on the owner as
hydrated by the query's `'fullName phoneNumber'` projection.  Its NaN
counters fail the save cast, so the catch returns 400 with the trip
already consumed and the stored user untouched; the `ok` arm (the write
the code intends) is unreachable under the projection — see
`updateTripStatsPopulated_none`. -/
def redeemTrip (db : DB) (code : ℕ) (now1 now2 : ℤ) :
    RedeemOutcome × DB :=
  match getValidTrip db.trips code now1 with
  | none => (RedeemOutcome.notFound, db)
  | some t =>
    match useTrip t now2 with
    | Except.error e => (RedeemOutcome.tripError e.1, db)
    | Except.ok t2 =>
      match lookupUser db.users t.userId with
      | none =>
        (RedeemOutcome.userMissing t2,
          { db with trips := saveTrip db.trips t2 })
      | some _ =>
        match updateTripStatsPopulated (populateUser t.userId)
            t2.totalAmount with
        | none =>
          (RedeemOutcome.statsCastError t2,
            { db with trips := saveTrip db.trips t2 })
        | some _ =>
          (RedeemOutcome.ok t2,
            { db with trips := saveTrip db.trips t2 })

/-- Outcomes of the `completeJourney` route handler
(src/routes/fares.js:451-480). -/
inductive CompleteOutcome
  | notFound
  | forbidden
  | invalidState
  | ok (trip : Trip)
  deriving DecidableEq, Repr

/-- The `completeJourney` handler of `POST /trips/:id/complete`
(src/routes/fares.js:451-480): `Trip.findById`, 404 when absent; then
the ownership check (`trip.user.toString() !== req.user.id` → 403)
BEFORE `trip.completeJourney()`, whose status≠'used' throw is caught
as 400. -/
def completeJourneyHandler (db : DB) (tripId : ℕ) (requester : ℕ)
    (now : ℤ) : CompleteOutcome × DB :=
  match findTripById db.trips tripId with
  | none => (CompleteOutcome.notFound, db)
  | some trip =>
    if trip.userId ≠ requester then (CompleteOutcome.forbidden, db)
    else
      match completeJourneyMethod trip now with
      | none => (CompleteOutcome.invalidState, db)
      | some t2 =>
        (CompleteOutcome.ok t2, { db with trips := saveTrip db.trips t2 })

/-- Outcomes of the `depositMoney` route handler
(src/routes/users.js:59-90). -/
inductive DepositOutcome
  | invalidAmount
  | userNotFound
  | ok (u : User)
  deriving DecidableEq, Repr

/-- The `depositMoney` handler of `POST /users/deposit`
(src/routes/users.js:59-90): `depositValidation` requires
`amount` to satisfy `isFloat({ min: 1 })` (src/routes/users.js:297-300),
then `User.findById` and `user.addBalance(amount)` unconditionally. -/
def depositMoney (db : DB) (uid : ℕ) (amount : ℚ) :
    DepositOutcome × DB :=
  if amount < 1 then (DepositOutcome.invalidAmount, db)
  else
    match lookupUser db.users uid with
    | none => (DepositOutcome.userNotFound, db)
    | some u =>
      let u2 := addBalance u amount
      (DepositOutcome.ok u2, { db with users := saveUser db.users uid u2 })

/-! ## Interleaving model of concurrent balance debits

Each `POST /trips` request with `paymentMethod = 'balance'` performs,
against the shared stored balance, the sequence

  1. read  — `User.findById` loads the document (balance snapshot);
  2. check — `user.balance < totalAmount` on the snapshot
             (src/routes/fares.js:367 and the re-check in
             `deductBalance`, both on the same in-memory document);
  3. write — `this.balance -= amount; this.save()` stores the absolute
             value `snapshot - amount` (not an atomic decrement).

Every database access is a suspension point (spec §5), so steps of two
concurrent requests interleave arbitrarily. -/

/-- Program counter of one in-flight balance-paid Issue request. -/
inductive DebitPc
  | beforeRead
  | beforeCheck
  | beforeWrite
  | doneOk
  | doneFailed
  deriving DecidableEq, Repr

/-- One in-flight debit: the amount it will charge, the balance snapshot
it read (none until the read step), and its program counter. -/
structure DebitThread where
  amount : ℚ
  snapshot : Option ℚ
  pc : DebitPc
  deriving DecidableEq, Repr

/-- A fresh debit thread for a given charge amount. -/
def initDebit (amount : ℚ) : DebitThread :=
  { amount := amount, snapshot := none, pc := DebitPc.beforeRead }

/-- Execute one atomic step of one debit thread against the shared
stored balance, returning the new stored balance and thread state. -/
def debitStep (bal : ℚ) (th : DebitThread) : ℚ × DebitThread :=
  match th.pc with
  | DebitPc.beforeRead =>
    (bal, { th with snapshot := some bal, pc := DebitPc.beforeCheck })
  | DebitPc.beforeCheck =>
    match th.snapshot with
    | none => (bal, th)
    | some v =>
      if v < th.amount then (bal, { th with pc := DebitPc.doneFailed })
      else (bal, { th with pc := DebitPc.beforeWrite })
  | DebitPc.beforeWrite =>
    match th.snapshot with
    | none => (bal, th)
    | some v => (v - th.amount, { th with pc := DebitPc.doneOk })
  | DebitPc.doneOk => (bal, th)
  | DebitPc.doneFailed => (bal, th)

/-- Shared state of two interleaved debit requests. -/
structure RaceState where
  bal : ℚ
  th1 : DebitThread
  th2 : DebitThread
  deriving DecidableEq, Repr

/-- Run one scheduler choice: `true` steps thread 1, `false` thread 2. -/
def raceStep (s : RaceState) (choice : Bool) : RaceState :=
  if choice then
    let (b, t) := debitStep s.bal s.th1
    { s with bal := b, th1 := t }
  else
    let (b, t) := debitStep s.bal s.th2
    { s with bal := b, th2 := t }

/-- Run a whole schedule (list of scheduler choices). -/
def runRace (s : RaceState) (sched : List Bool) : RaceState :=
  sched.foldl raceStep s

/-- The initial state: stored balance `bal`, two pending debits. -/
def initRace (bal a1 a2 : ℚ) : RaceState :=
  { bal := bal, th1 := initDebit a1, th2 := initDebit a2 }

/-- The specific interleaving described in spec §5: both requests read,
both pass the check, then both write. -/
def bothReadFirstSched : List Bool :=
  [true, false, true, false, true, false]

/-- A thread about to write has a snapshot at least as large as its
charge (its check passed on that snapshot). -/
def threadOk (th : DebitThread) : Prop :=
  th.pc = DebitPc.beforeWrite →
    ∃ v, th.snapshot = some v ∧ th.amount ≤ v

/-- Invariant of the interleaved execution: the stored balance is
non-negative and both threads satisfy `threadOk`. -/
def raceOk (s : RaceState) : Prop :=
  0 ≤ s.bal ∧ threadOk s.th1 ∧ threadOk s.th2

/-! ## Top-level API operations (for cross-operation invariants) -/

/-- One call to any of the state-mutating endpoints of the trip/ledger
subsystem. -/
inductive ApiOp
  | issue (uid : ℕ) (req : IssueReq) (now : ℤ) (newCode : ℕ)
  | redeem (code : ℕ) (now1 now2 : ℤ)
  | complete (tripId requester : ℕ) (now : ℤ)
  | deposit (uid : ℕ) (amount : ℚ)
  deriving DecidableEq, Repr

/-- The effect of one API call on the shared store. -/
def stepDB (db : DB) (op : ApiOp) : DB :=
  match op with
  | ApiOp.issue uid req now newCode => (createTrip db uid req now newCode).2
  | ApiOp.redeem code now1 now2 => (redeemTrip db code now1 now2).2
  | ApiOp.complete tripId requester now =>
    (completeJourneyHandler db tripId requester now).2
  | ApiOp.deposit uid amount => (depositMoney db uid amount).2

/-- The effect of a sequence of API calls on the shared store. -/
def runOps (db : DB) (ops : List ApiOp) : DB := ops.foldl stepDB db

/-- Every trip document stored under code `c` has status 'used'. -/
def usedFrozen (db : DB) (c : ℕ) : Prop :=
  ∀ t ∈ db.trips, t.tripCode = c → t.status = TripStatus.used

/-- An operation does not mint a new trip under code `c` (trip codes are
unique — mongo enforces a unique index on `tripCode`). -/
def freshFor (op : ApiOp) (c : ℕ) : Prop :=
  match op with
  | ApiOp.issue _ _ _ newCode => newCode ≠ c
  | _ => True

/-! ## Sample documents (used by the concrete witnesses below) -/

/-- A sample user with balance 100. -/
def sampleUser : User := { balance := 100, totalTrips := 0, totalExpense := 0 }

/-- A sample active regular fare of 30 for the edge 1 → 2, unbounded
date window. -/
def sampleFare : Fare :=
  { fromStation := 1, toStation := 2, fare := 30,
    fareType := FareType.regular, isActive := true,
    effectiveFrom := 0, effectiveTo := none }

/-- A sample store: user 1, the fare 1 → 2, no trips yet. -/
def sampleDB : DB := { users := [(1, sampleUser)], trips := [], fares := [sampleFare] }

/-- A trip of user 1 in status 'created' whose `expiresAt` has passed
by time 10. -/
def expiredTrip : Trip :=
  { tripCode := 5, userId := 1, fromStation := 1, toStation := 2,
    fare := 30, numberOfPassengers := 1, totalAmount := 30,
    status := TripStatus.created, usedAt := none, expiresAt := 0,
    journeyStartTime := none, journeyEndTime := none,
    paymentMethod := PaymentMethod.balance,
    paymentStatus := PaymentStatus.pending }

/-- A store holding only the lapsed trip. -/
def dbExpired : DB :=
  { users := [(1, sampleUser)], trips := [expiredTrip], fares := [sampleFare] }

/-- A live trip of user 1 in status 'created' (expires at 1000000). -/
def createdTrip : Trip := { expiredTrip with tripCode := 6, expiresAt := 1000000 }

/-- A store holding the live 'created' trip. -/
def dbCreated : DB :=
  { users := [(1, sampleUser)], trips := [createdTrip], fares := [sampleFare] }

/-- The document `useTrip` persists when `createdTrip` is redeemed at
time 50. -/
def usedCreatedTrip : Trip :=
  { createdTrip with
    status := TripStatus.used
    usedAt := some 50
    journeyStartTime := some 50 }

/-- A trip of user 1 already in status 'used'. -/
def usedTrip : Trip :=
  { createdTrip with
    tripCode := 7
    status := TripStatus.used
    usedAt := some 50
    journeyStartTime := some 50 }

/-- A sample user with balance 0. -/
def zeroUser : User := { balance := 0, totalTrips := 0, totalExpense := 0 }

/-- A store holding the 'used' trip. -/
def dbUsed : DB :=
  { users := [(1, sampleUser)], trips := [usedTrip], fares := [sampleFare] }

/-! ## Helper lemmas -/

/-- Re-reading a user after `saveUser` yields the saved document. -/
theorem lookupUser_saveUser (users : List (ℕ × User)) (uid : ℕ)
    (u u2 : User) (h : lookupUser users uid = some u) :
    lookupUser (saveUser users uid u2) uid = some u2 := by
  unfold lookupUser at h
  obtain ⟨q, hq⟩ : ∃ q, users.find? (fun p => p.1 == uid) = some q := by
    cases hfind : users.find? (fun p => p.1 == uid) with
    | none => rw [hfind] at h; simp at h
    | some q => exact ⟨q, rfl⟩
  unfold lookupUser saveUser
  rw [List.find?_map]
  have hpred : ((fun p : ℕ × User => p.1 == uid) ∘
      (fun p : ℕ × User => if p.1 == uid then (uid, u2) else p)) =
      (fun p : ℕ × User => p.1 == uid) := by
    funext p
    by_cases hp : p.1 = uid
    · simp [hp]
    · simp [hp]
  rw [hpred, hq]
  have hqu : q.1 = uid := by simpa using List.find?_some hq
  simp [hqu]

/-- `applyLedgerOp` preserves a non-negative balance. -/
theorem ledgerOp_preserves_nonneg (u : User) (op : LedgerOp)
    (h : 0 ≤ u.balance) : 0 ≤ (applyLedgerOp u op).balance := by
  cases op with
  | deposit a =>
    by_cases h1 : 1 ≤ a
    · simp only [applyLedgerOp, if_pos h1, addBalance]
      have : (0 : ℚ) ≤ a := le_trans (by norm_num) h1
      simpa using add_nonneg h this
    · simpa [applyLedgerOp, if_neg h1] using h
  | debit a =>
    by_cases h1 : u.balance < a
    · simpa [applyLedgerOp, deductBalance, if_pos h1] using h
    · simp only [applyLedgerOp, deductBalance, if_neg h1, Option.getD_some]
      simpa using sub_nonneg.mpr (not_lt.mp h1)

/-- Sequences of ledger operations preserve a non-negative balance. -/
theorem ledgerOps_preserve_nonneg (ops : List LedgerOp) :
    ∀ u : User, 0 ≤ u.balance → 0 ≤ (applyLedgerOps u ops).balance := by
  induction ops with
  | nil => intro u h; simpa [applyLedgerOps] using h
  | cons op rest ih =>
    intro u h
    have := ih (applyLedgerOp u op) (ledgerOp_preserves_nonneg u op h)
    simpa [applyLedgerOps, List.foldl_cons] using this

/-! ## Claims -/

/-- C1: for every user and every sequence of Deposit and Debit
operations, `balance ≥ 0` holds afterwards; a Debit with
`amount > balance` fails (`deductBalance` throws 'Insufficient balance',
modelled as `none`) and leaves the balance exactly unchanged. -/
theorem claim1_balance_invariant (u : User) (ops : List LedgerOp)
    (h : 0 ≤ u.balance) :
    0 ≤ (applyLedgerOps u ops).balance ∧
      ∀ a : ℚ, u.balance < a →
        deductBalance u a = none ∧
          applyLedgerOp u (LedgerOp.debit a) = u := by
  refine ⟨ledgerOps_preserve_nonneg ops u h, ?_⟩
  intro a ha
  constructor
  · simp [deductBalance, if_pos ha]
  · simp [applyLedgerOp, deductBalance, if_pos ha]

/-- Witness for C1 at a concrete input: user with balance 0, a deposit
of 5 followed by a debit of 3. -/
theorem claim1_balance_invariant_witness :
    0 ≤ zeroUser.balance ∧
      (0 ≤ (applyLedgerOps zeroUser
          [LedgerOp.deposit 5, LedgerOp.debit 3]).balance ∧
        ∀ a : ℚ, zeroUser.balance < a →
          deductBalance zeroUser a = none ∧
            applyLedgerOp zeroUser (LedgerOp.debit a) = zeroUser) :=
  ⟨by norm_num [zeroUser],
    claim1_balance_invariant zeroUser
      [LedgerOp.deposit 5, LedgerOp.debit 3] (by norm_num [zeroUser])⟩

/-- C2: an Issue for which an active regular fare exists and (for
balance payment) the balance suffices creates a Trip with
`totalAmount = fare.price * passengerCount`, status 'created' and
`expiresAt = now + 24h`; with balance payment the user's balance is
debited by exactly `totalAmount` in the same operation. -/
theorem claim2_issue_success (db : DB) (uid : ℕ) (req : IssueReq)
    (now : ℤ) (newCode : ℕ) (u : User) (f : Fare)
    (hp : 1 ≤ req.numberOfPassengers ∧ req.numberOfPassengers ≤ 10)
    (hf : getFare db.fares req.fromStation req.toStation FareType.regular
      now = some f)
    (hu : lookupUser db.users uid = some u)
    (hb : req.paymentMethod = PaymentMethod.balance →
      f.fare * (req.numberOfPassengers : ℚ) ≤ u.balance) :
    ∃ trip db2,
      createTrip db uid req now newCode = (IssueOutcome.ok trip, db2) ∧
      trip.totalAmount = f.fare * (req.numberOfPassengers : ℚ) ∧
      trip.status = TripStatus.created ∧
      trip.expiresAt = now + dayMs ∧
      (req.paymentMethod = PaymentMethod.balance →
        lookupUser db2.users uid =
          some { u with balance := u.balance - trip.totalAmount }) := by
  have hval : ¬¬(1 ≤ req.numberOfPassengers ∧ req.numberOfPassengers ≤ 10) :=
    not_not_intro hp
  by_cases hm : req.paymentMethod = PaymentMethod.balance
  · have hnlt : ¬ (u.balance < f.fare * (req.numberOfPassengers : ℚ)) :=
      not_lt.mpr (hb hm)
    have hcond : ¬ (req.paymentMethod = PaymentMethod.balance ∧
        u.balance < f.fare * (req.numberOfPassengers : ℚ)) :=
      fun hc => hnlt hc.2
    simp only [createTrip, if_neg hval, hf, hu, if_neg hcond, if_pos hm,
      deductBalance, if_neg hnlt]
    refine ⟨_, _, rfl, rfl, rfl, rfl, fun _ => ?_⟩
    exact lookupUser_saveUser db.users uid u _ hu
  · have hcond : ¬ (req.paymentMethod = PaymentMethod.balance ∧
        u.balance < f.fare * (req.numberOfPassengers : ℚ)) :=
      fun hc => hm hc.1
    simp only [createTrip, if_neg hval, hf, hu, if_neg hcond, if_neg hm]
    exact ⟨_, _, rfl, rfl, rfl, rfl, fun hmm => absurd hmm hm⟩

/-- Witness for C2: user 1 of `sampleDB` (balance 100) issues a trip on
edge 1 → 2 (fare 30) for 2 passengers paid from balance at time 0. -/
theorem claim2_issue_success_witness :
    ∃ trip db2,
      createTrip sampleDB 1
        { fromStation := 1, toStation := 2, numberOfPassengers := 2,
          paymentMethod := PaymentMethod.balance } 0 11 =
        (IssueOutcome.ok trip, db2) ∧
      trip.totalAmount = sampleFare.fare * (2 : ℚ) ∧
      trip.status = TripStatus.created ∧
      trip.expiresAt = 0 + dayMs ∧
      (PaymentMethod.balance = PaymentMethod.balance →
        lookupUser db2.users 1 =
          some { sampleUser with
                  balance := sampleUser.balance - trip.totalAmount }) :=
  claim2_issue_success sampleDB 1
    { fromStation := 1, toStation := 2, numberOfPassengers := 2,
      paymentMethod := PaymentMethod.balance } 0 11 sampleUser sampleFare
    (by decide) (by decide) (by decide) (fun _ => by norm_num [sampleFare, sampleUser])

/-- C3: an Issue with balance payment and
`user.balance < fare.price * passengerCount` fails with
'Insufficient balance' (HTTP 400) and leaves the whole store — in
particular the user's balance and the trip collection — unchanged. -/
theorem claim3_insufficient_balance (db : DB) (uid : ℕ) (req : IssueReq)
    (now : ℤ) (newCode : ℕ) (u : User) (f : Fare)
    (hp : 1 ≤ req.numberOfPassengers ∧ req.numberOfPassengers ≤ 10)
    (hf : getFare db.fares req.fromStation req.toStation FareType.regular
      now = some f)
    (hu : lookupUser db.users uid = some u)
    (hm : req.paymentMethod = PaymentMethod.balance)
    (hb : u.balance < f.fare * (req.numberOfPassengers : ℚ)) :
    createTrip db uid req now newCode =
        (IssueOutcome.insufficientBalance, db) ∧
      (createTrip db uid req now newCode).2.trips.length =
        db.trips.length ∧
      lookupUser (createTrip db uid req now newCode).2.users uid =
        some u := by
  have hval : ¬¬(1 ≤ req.numberOfPassengers ∧ req.numberOfPassengers ≤ 10) :=
    not_not_intro hp
  have heq : createTrip db uid req now newCode =
      (IssueOutcome.insufficientBalance, db) := by
    simp only [createTrip, if_neg hval, hf, hu, if_pos (And.intro hm hb)]
  exact ⟨heq, by rw [heq], by rw [heq]; exact hu⟩

/-- Witness for C3: user 1 of `sampleDB` (balance 100) cannot issue a
trip for 4 passengers at fare 30 (total 120) from balance. -/
theorem claim3_insufficient_balance_witness :
    createTrip sampleDB 1
        { fromStation := 1, toStation := 2, numberOfPassengers := 4,
          paymentMethod := PaymentMethod.balance } 0 11 =
        (IssueOutcome.insufficientBalance, sampleDB) ∧
      (createTrip sampleDB 1
        { fromStation := 1, toStation := 2, numberOfPassengers := 4,
          paymentMethod := PaymentMethod.balance } 0 11).2.trips.length =
        sampleDB.trips.length ∧
      lookupUser (createTrip sampleDB 1
        { fromStation := 1, toStation := 2, numberOfPassengers := 4,
          paymentMethod := PaymentMethod.balance } 0 11).2.users 1 =
        some sampleUser :=
  claim3_insufficient_balance sampleDB 1
    { fromStation := 1, toStation := 2, numberOfPassengers := 4,
      paymentMethod := PaymentMethod.balance } 0 11 sampleUser sampleFare
    (by decide) (by decide) (by decide) rfl
    (by norm_num [sampleFare, sampleUser])

/-- C10: an Issue paid by 'cash' or 'card' performs no
balance-sufficiency check (it succeeds under no hypothesis on
`user.balance`), leaves the users collection — hence balance,
`totalTrips` and `totalExpense` — completely unchanged, and the created
trip has `paymentStatus` 'pending'. -/
theorem claim10_cash_card_issue (db : DB) (uid : ℕ) (req : IssueReq)
    (now : ℤ) (newCode : ℕ) (u : User) (f : Fare)
    (hp : 1 ≤ req.numberOfPassengers ∧ req.numberOfPassengers ≤ 10)
    (hf : getFare db.fares req.fromStation req.toStation FareType.regular
      now = some f)
    (hu : lookupUser db.users uid = some u)
    (hm : req.paymentMethod = PaymentMethod.cash ∨
      req.paymentMethod = PaymentMethod.card) :
    ∃ trip,
      createTrip db uid req now newCode =
        (IssueOutcome.ok trip, { db with trips := db.trips ++ [trip] }) ∧
      trip.paymentStatus = PaymentStatus.pending ∧
      trip.status = TripStatus.created ∧
      (createTrip db uid req now newCode).2.users = db.users := by
  have hval : ¬¬(1 ≤ req.numberOfPassengers ∧ req.numberOfPassengers ≤ 10) :=
    not_not_intro hp
  have hnb : req.paymentMethod ≠ PaymentMethod.balance := by
    rcases hm with h | h <;> rw [h] <;> intro hc <;> exact PaymentMethod.noConfusion hc
  have hcond : ¬ (req.paymentMethod = PaymentMethod.balance ∧
      u.balance < f.fare * (req.numberOfPassengers : ℚ)) :=
    fun hc => hnb hc.1
  have heq : createTrip db uid req now newCode =
      (IssueOutcome.ok
        { tripCode := newCode
          userId := uid
          fromStation := req.fromStation
          toStation := req.toStation
          fare := f.fare
          numberOfPassengers := req.numberOfPassengers
          totalAmount := f.fare * (req.numberOfPassengers : ℚ)
          status := TripStatus.created
          usedAt := none
          expiresAt := now + dayMs
          journeyStartTime := none
          journeyEndTime := none
          paymentMethod := req.paymentMethod
          paymentStatus := PaymentStatus.pending },
        { db with trips := db.trips ++
          [{ tripCode := newCode
             userId := uid
             fromStation := req.fromStation
             toStation := req.toStation
             fare := f.fare
             numberOfPassengers := req.numberOfPassengers
             totalAmount := f.fare * (req.numberOfPassengers : ℚ)
             status := TripStatus.created
             usedAt := none
             expiresAt := now + dayMs
             journeyStartTime := none
             journeyEndTime := none
             paymentMethod := req.paymentMethod
             paymentStatus := PaymentStatus.pending }] }) := by
    simp only [createTrip, if_neg hval, hf, hu, if_neg hcond, if_neg hnb]
  exact ⟨_, heq, rfl, rfl, by rw [heq]⟩

/-- Witness for C10: user with balance 0 issues a cash-paid trip. -/
theorem claim10_cash_card_issue_witness :
    ∃ trip,
      createTrip { sampleDB with users := [(1, zeroUser)] } 1
          { fromStation := 1, toStation := 2, numberOfPassengers := 3,
            paymentMethod := PaymentMethod.cash } 0 12 =
        (IssueOutcome.ok trip,
          { { sampleDB with users := [(1, zeroUser)] } with
              trips := { sampleDB with users := [(1, zeroUser)] }.trips ++
                [trip] }) ∧
      trip.paymentStatus = PaymentStatus.pending ∧
      trip.status = TripStatus.created ∧
      (createTrip { sampleDB with users := [(1, zeroUser)] } 1
          { fromStation := 1, toStation := 2, numberOfPassengers := 3,
            paymentMethod := PaymentMethod.cash } 0 12).2.users =
        { sampleDB with users := [(1, zeroUser)] }.users :=
  claim10_cash_card_issue { sampleDB with users := [(1, zeroUser)] } 1
    { fromStation := 1, toStation := 2, numberOfPassengers := 3,
      paymentMethod := PaymentMethod.cash } 0 12 zeroUser sampleFare
    (by decide) (by decide) (by decide) (Or.inl rfl)

/-- A trip found by `getValidTrip` has the queried code, status
'created', and a strictly future `expiresAt`. -/
theorem getValidTrip_some (trips : List Trip) (code : ℕ) (now : ℤ)
    (t : Trip) (h : getValidTrip trips code now = some t) :
    t.tripCode = code ∧ t.status = TripStatus.created ∧
      now < t.expiresAt := by
  unfold getValidTrip at h
  have hp := List.find?_some h
  simp only [Bool.and_eq_true, beq_iff_eq, decide_eq_true_eq] at hp
  exact ⟨hp.1.1, hp.1.2, hp.2⟩

/-- The stats update of the redeem route can never succeed: on the
owner hydrated under the `'fullName phoneNumber'` projection both
counter paths are `undefined`, so the incremented values are `NaN` and
the save cast is rejected, whatever the charge. -/
theorem updateTripStatsPopulated_none (uid : ℕ) (tripFare : ℚ) :
    updateTripStatsPopulated (populateUser uid) tripFare = none := rfl

/-- C4: the claim says redeeming a created, unexpired trip makes its
status 'used' with `usedAt` and `journeyStartTime` set to now, AND
increments the owner's `totalTrips` by exactly 1 and `totalExpense` by
exactly the trip's `totalAmount`.  The code consumes the trip but can
never perform the increment: `getValidTrip` populates `trip.user` with
only `fullName phoneNumber`, so `updateTripStats` adds to undefined
counters, yielding NaN, and the user save is cast-rejected.  At the
failing input (trip code 6 of user 1, redeemed at time 50) the trip is
persisted as 'used' yet the stored user still has `totalTrips = 0` and
`totalExpense = 0`, and the request ends in the catch branch. -/
theorem claim4_stats_never_incremented :
    updateTripStatsPopulated (populateUser 1)
        createdTrip.totalAmount = none ∧
    (redeemTrip dbCreated 6 50 50).1 =
      RedeemOutcome.statsCastError usedCreatedTrip ∧
    findTripById (redeemTrip dbCreated 6 50 50).2.trips 6 =
      some usedCreatedTrip ∧
    usedCreatedTrip.status = TripStatus.used ∧
    usedCreatedTrip.usedAt = some 50 ∧
    usedCreatedTrip.journeyStartTime = some 50 ∧
    lookupUser (redeemTrip dbCreated 6 50 50).2.users 1 =
      some sampleUser ∧
    sampleUser.totalTrips = 0 ∧
    sampleUser.totalExpense = 0 := by decide

/-- C5 counterexample: in `dbExpired` the trip with code 5 is stored in
status 'created' with `expiresAt = 0`.  Redeeming it at time 10 fails
with NotFound and leaves the store untouched: the persisted status is
still 'created', not 'expired' as the claim states. -/
theorem claim5_counterexample :
    (redeemTrip dbExpired 5 10 10).1 = RedeemOutcome.notFound ∧
    (redeemTrip dbExpired 5 10 10).2 = dbExpired ∧
    findTripById (redeemTrip dbExpired 5 10 10).2.trips 5 =
      some expiredTrip ∧
    expiredTrip.status = TripStatus.created ∧
    expiredTrip.status ≠ TripStatus.expired := by decide

/-- C5 (amended): redeeming a trip whose `expiresAt` has passed fails
and leaves the store — in particular the trip's persisted status —
entirely unchanged; the 'expired' flip in `useTrip` is assigned only on
the in-memory document and the throw prevents the save, so nothing is
persisted and the trip can never be successfully redeemed afterwards:
every retry at the same or a later time fails as well. -/
theorem claim5_expired_never_redeemable (db : DB) (code : ℕ) (now1 : ℤ)
    (hexp : ∀ t ∈ db.trips, t.tripCode = code → t.expiresAt ≤ now1) :
    (∀ n1 n2 : ℤ, now1 ≤ n1 →
      redeemTrip db code n1 n2 = (RedeemOutcome.notFound, db)) ∧
    (∀ (db2 : DB) (t : Trip) (n1 n2 : ℤ),
      getValidTrip db2.trips code n1 = some t → t.expiresAt < n2 →
      redeemTrip db2 code n1 n2 =
        (RedeemOutcome.tripError UseTripErr.hasExpired, db2)) := by
  constructor
  · intro n1 n2 h1
    have hnone : getValidTrip db.trips code n1 = none := by
      unfold getValidTrip
      rw [List.find?_eq_none]
      intro t htmem
      by_cases hc : t.tripCode = code
      · have hn : ¬ (n1 < t.expiresAt) :=
          not_lt.mpr (le_trans (hexp t htmem hc) h1)
        simp [hc, hn]
      · simp [hc]
    simp [redeemTrip, hnone]
  · intro db2 t n1 n2 hfound hlate
    obtain ⟨hcode, hstatus, _⟩ := getValidTrip_some db2.trips code n1 t hfound
    have huse : useTrip t n2 = Except.error (UseTripErr.hasExpired,
        { t with status := TripStatus.expired }) := by
      unfold useTrip
      rw [if_neg (not_not_intro hstatus), if_pos hlate]
    simp [redeemTrip, hfound, huse]

/-- Witness for C5 (amended) at `dbExpired`: every redemption of the
lapsed code 5 at or after time 10 fails with NotFound and changes
nothing. -/
theorem claim5_expired_never_redeemable_witness :
    (∀ n1 n2 : ℤ, (10 : ℤ) ≤ n1 →
      redeemTrip dbExpired 5 n1 n2 = (RedeemOutcome.notFound, dbExpired)) ∧
    (∀ (db2 : DB) (t : Trip) (n1 n2 : ℤ),
      getValidTrip db2.trips 5 n1 = some t → t.expiresAt < n2 →
      redeemTrip db2 5 n1 n2 =
        (RedeemOutcome.tripError UseTripErr.hasExpired, db2)) :=
  claim5_expired_never_redeemable dbExpired 5 10 (by decide)

/-- Membership in a saved trip list: either the written document or an
original one. -/
theorem mem_saveTrip (l : List Trip) (t x : Trip)
    (hx : x ∈ saveTrip l t) : x = t ∨ x ∈ l := by
  unfold saveTrip at hx
  obtain ⟨y, hy, hxy⟩ := List.mem_map.mp hx
  by_cases hc : y.tripCode = t.tripCode
  · left; rw [← hxy]; simp [hc]
  · right; rw [← hxy]; simpa [hc] using hy

/-- `createTrip` either leaves the trips collection unchanged or appends
one document carrying the fresh code. -/
theorem createTrip_trips (db : DB) (uid : ℕ) (req : IssueReq) (now : ℤ)
    (newCode : ℕ) :
    (createTrip db uid req now newCode).2.trips = db.trips ∨
    ∃ trip : Trip, trip.tripCode = newCode ∧
      (createTrip db uid req now newCode).2.trips = db.trips ++ [trip] := by
  unfold createTrip
  dsimp only
  split
  · left; rfl
  · split
    · left; rfl
    · split
      · left; rfl
      · split
        · left; rfl
        · split
          · split
            · right; exact ⟨_, rfl, rfl⟩
            · right; exact ⟨_, rfl, rfl⟩
          · right; exact ⟨_, rfl, rfl⟩

/-- A successful `useTrip` returns the found document with status
'used' and the same code. -/
theorem useTrip_ok (t : Trip) (now : ℤ) (t2 : Trip)
    (h : useTrip t now = Except.ok t2) :
    t2.status = TripStatus.used ∧ t2.tripCode = t.tripCode := by
  unfold useTrip at h
  split at h
  · exact absurd h (by simp)
  · split at h
    · exact absurd h (by simp)
    · cases h; exact ⟨rfl, rfl⟩

/-- `redeemTrip` either leaves the trips collection unchanged or saves
one document in status 'used'. -/
theorem redeemTrip_trips (db : DB) (code : ℕ) (now1 now2 : ℤ) :
    (redeemTrip db code now1 now2).2.trips = db.trips ∨
    ∃ t2 : Trip, t2.status = TripStatus.used ∧
      (redeemTrip db code now1 now2).2.trips = saveTrip db.trips t2 := by
  cases hv : getValidTrip db.trips code now1 with
  | none => left; simp [redeemTrip, hv]
  | some t =>
    cases hu2 : useTrip t now2 with
    | error e => left; simp [redeemTrip, hv, hu2]
    | ok t2 =>
      cases hl : lookupUser db.users t.userId with
      | none =>
        right
        exact ⟨t2, (useTrip_ok t now2 t2 hu2).1,
          by simp [redeemTrip, hv, hu2, hl]⟩
      | some u =>
        right
        exact ⟨t2, (useTrip_ok t now2 t2 hu2).1,
          by simp [redeemTrip, hv, hu2, hl,
            updateTripStatsPopulated_none]⟩

/-- A successful `completeJourneyMethod` requires status 'used' and
returns the document with the status field untouched. -/
theorem completeJourneyMethod_some (t : Trip) (now : ℤ) (t2 : Trip)
    (h : completeJourneyMethod t now = some t2) :
    t.status = TripStatus.used ∧ t2.status = TripStatus.used ∧
      t2.tripCode = t.tripCode := by
  unfold completeJourneyMethod at h
  split at h
  · exact absurd h (by simp)
  · next hst =>
    cases h
    have : t.status = TripStatus.used := not_not.mp hst
    exact ⟨this, this, rfl⟩

/-- `completeJourneyHandler` either leaves the trips collection
unchanged or saves one document in status 'used'. -/
theorem completeJourney_trips (db : DB) (tripId requester : ℕ)
    (now : ℤ) :
    (completeJourneyHandler db tripId requester now).2.trips = db.trips ∨
    ∃ t2 : Trip, t2.status = TripStatus.used ∧
      (completeJourneyHandler db tripId requester now).2.trips =
        saveTrip db.trips t2 := by
  cases hf : findTripById db.trips tripId with
  | none => left; simp [completeJourneyHandler, hf]
  | some trip =>
    by_cases ho : trip.userId ≠ requester
    · left; simp [completeJourneyHandler, hf, if_pos ho]
    · cases hc : completeJourneyMethod trip now with
      | none => left; simp [completeJourneyHandler, hf, if_neg ho, hc]
      | some t2 =>
        right
        exact ⟨t2, (completeJourneyMethod_some trip now t2 hc).2.1,
          by simp [completeJourneyHandler, hf, if_neg ho, hc]⟩

/-- `depositMoney` never touches the trips collection. -/
theorem depositMoney_trips (db : DB) (uid : ℕ) (amount : ℚ) :
    (depositMoney db uid amount).2.trips = db.trips := by
  unfold depositMoney
  split
  · rfl
  · split <;> rfl

/-- One API call preserves "every stored trip under code `c` is
'used'", provided the call does not mint a fresh trip under `c`. -/
theorem usedFrozen_step (db : DB) (op : ApiOp) (c : ℕ)
    (hf : usedFrozen db c) (hfresh : freshFor op c) :
    usedFrozen (stepDB db op) c := by
  cases op with
  | issue uid req now newCode =>
    intro t htmem hcode
    rcases createTrip_trips db uid req now newCode with heq | ⟨trip, htrip, heq⟩
    · rw [stepDB, heq] at htmem
      exact hf t htmem hcode
    · rw [stepDB, heq] at htmem
      rcases List.mem_append.mp htmem with hmem | hmem
      · exact hf t hmem hcode
      · have : t = trip := by simpa using hmem
        subst this
        rw [htrip] at hcode
        exact absurd hcode hfresh
  | redeem code now1 now2 =>
    intro t htmem hcode
    rcases redeemTrip_trips db code now1 now2 with heq | ⟨t2, hst, heq⟩
    · rw [stepDB, heq] at htmem
      exact hf t htmem hcode
    · rw [stepDB, heq] at htmem
      rcases mem_saveTrip db.trips t2 t htmem with h | h
      · rw [h]; exact hst
      · exact hf t h hcode
  | complete tripId requester now =>
    intro t htmem hcode
    rcases completeJourney_trips db tripId requester now with heq | ⟨t2, hst, heq⟩
    · rw [stepDB, heq] at htmem
      exact hf t htmem hcode
    · rw [stepDB, heq] at htmem
      rcases mem_saveTrip db.trips t2 t htmem with h | h
      · rw [h]; exact hst
      · exact hf t h hcode
  | deposit uid amount =>
    intro t htmem hcode
    rw [stepDB, depositMoney_trips db uid amount] at htmem
    exact hf t htmem hcode

/-- Any sequence of API calls that never mints a fresh trip under `c`
preserves "every stored trip under code `c` is 'used'". -/
theorem usedFrozen_runOps (ops : List ApiOp) :
    ∀ (db : DB) (c : ℕ), usedFrozen db c →
      (∀ op ∈ ops, freshFor op c) → usedFrozen (runOps db ops) c := by
  induction ops with
  | nil => intro db c h _; simpa [runOps] using h
  | cons op rest ih =>
    intro db c h hfr
    have h1 := usedFrozen_step db op c h (hfr op (by simp))
    have h2 := ih (stepDB db op) c h1 (fun o ho => hfr o (by simp [ho]))
    simpa [runOps, List.foldl_cons] using h2

/-- C6 counterexample: in `dbCreated` the trip with code 6 belongs to
user 1 and is in status 'created' (not 'used').  A CompleteJourney by
non-owner 2 returns Forbidden (403), not the InvalidState (400) the
claim's first conditional demands for a non-'used' trip. -/
theorem claim6_counterexample :
    createdTrip.userId = 1 ∧
    createdTrip.status ≠ TripStatus.used ∧
    (completeJourneyHandler dbCreated 6 2 50).1 =
      CompleteOutcome.forbidden ∧
    (completeJourneyHandler dbCreated 6 2 50).1 ≠
      CompleteOutcome.invalidState := by decide

/-- C6 (amended): on an existing trip, the ownership check runs first —
a requester other than the owner gets Forbidden (403) regardless of
status; the owner completing a non-'used' trip gets InvalidState (400);
otherwise `journeyEndTime` is set to now with the status left at 'used',
and 'used' is terminal: no later sequence of API calls (none of which
can mint a fresh trip under the same unique code) ever moves a stored
trip with that code out of status 'used'. -/
theorem claim6_complete_journey (db : DB) (tripId requester : ℕ)
    (now : ℤ) (trip : Trip)
    (ht : findTripById db.trips tripId = some trip) :
    (trip.userId ≠ requester →
      completeJourneyHandler db tripId requester now =
        (CompleteOutcome.forbidden, db)) ∧
    (trip.userId = requester → trip.status ≠ TripStatus.used →
      completeJourneyHandler db tripId requester now =
        (CompleteOutcome.invalidState, db)) ∧
    (trip.userId = requester → trip.status = TripStatus.used →
      completeJourneyHandler db tripId requester now =
        (CompleteOutcome.ok (completed trip now),
         { db with trips := saveTrip db.trips (completed trip now) }) ∧
      (completed trip now).status = trip.status ∧
      (completed trip now).journeyEndTime = some now) ∧
    (∀ (c : ℕ) (ops : List ApiOp), usedFrozen db c →
      (∀ op ∈ ops, freshFor op c) → usedFrozen (runOps db ops) c) := by
  refine ⟨?_, ?_, ?_, fun c ops h hfr => usedFrozen_runOps ops db c h hfr⟩
  · intro hown
    simp only [completeJourneyHandler, ht, if_pos hown]
  · intro hown hst
    have hnone : completeJourneyMethod trip now = none := by
      unfold completeJourneyMethod
      rw [if_pos hst]
    simp only [completeJourneyHandler, ht, if_neg (not_not_intro hown), hnone]
  · intro hown hst
    have hsome : completeJourneyMethod trip now = some (completed trip now) := by
      unfold completeJourneyMethod completed
      rw [if_neg (not_not_intro hst)]
    refine ⟨?_, rfl, rfl⟩
    simp only [completeJourneyHandler, ht, if_neg (not_not_intro hown), hsome]

/-- Witness for C6 (amended) at `dbUsed`: owner 1 completes the 'used'
trip with code 7 at time 99. -/
theorem claim6_complete_journey_witness :
    (usedTrip.userId ≠ 1 →
      completeJourneyHandler dbUsed 7 1 99 =
        (CompleteOutcome.forbidden, dbUsed)) ∧
    (usedTrip.userId = 1 → usedTrip.status ≠ TripStatus.used →
      completeJourneyHandler dbUsed 7 1 99 =
        (CompleteOutcome.invalidState, dbUsed)) ∧
    (usedTrip.userId = 1 → usedTrip.status = TripStatus.used →
      completeJourneyHandler dbUsed 7 1 99 =
        (CompleteOutcome.ok (completed usedTrip 99),
         { dbUsed with trips := saveTrip dbUsed.trips (completed usedTrip 99) }) ∧
      (completed usedTrip 99).status = usedTrip.status ∧
      (completed usedTrip 99).journeyEndTime = some 99) ∧
    (∀ (c : ℕ) (ops : List ApiOp), usedFrozen dbUsed c →
      (∀ op ∈ ops, freshFor op c) → usedFrozen (runOps dbUsed ops) c) :=
  claim6_complete_journey dbUsed 7 1 99 usedTrip (by decide)

/-- The `getFare` query predicate in propositional form: station pair,
fare type, `isActive`, and `effectiveTo` null or not yet passed.
`effectiveFrom` does not occur. -/
theorem getFareMatches_iff (f : Fare) (fromS toS : ℕ) (ft : FareType)
    (now : ℤ) :
    getFareMatches f fromS toS ft now = true ↔
      f.fromStation = fromS ∧ f.toStation = toS ∧ f.fareType = ft ∧
        f.isActive = true ∧
        (f.effectiveTo = none ∨
          ∃ e, f.effectiveTo = some e ∧ now ≤ e) := by
  unfold getFareMatches
  cases hE : f.effectiveTo with
  | none => simp [hE, Bool.and_eq_true, beq_iff_eq, and_assoc]
  | some e =>
    simp [hE, Bool.and_eq_true, beq_iff_eq, decide_eq_true_eq, and_assoc]

/-- C7 counterexample: an active fare whose `effectiveFrom` (100) lies
in the future of the lookup time (0) is nevertheless returned by
`Fare.getFare` — the claimed window condition `effectiveFrom ≤ now`
is not checked by the code.  The `/fares/in-between` query checks no
date at all and also returns it. -/
theorem claim7_counterexample :
    getFare [{ sampleFare with effectiveFrom := 100 }] 1 2
        FareType.regular 0 =
      some { sampleFare with effectiveFrom := 100 } ∧
    findFareInBetween [{ sampleFare with effectiveFrom := 100 }] 1 2
        FareType.regular =
      some { sampleFare with effectiveFrom := 100 } ∧
    ¬ (({ sampleFare with effectiveFrom := 100 } : Fare).effectiveFrom
        ≤ (0 : ℤ)) := by decide

/-- C7 (amended): `FindFare` returns a fare exactly when an active fare
row for the tuple exists whose `effectiveTo` is null or at least the
current time; `effectiveFrom` is never compared against the clock; any
returned fare is one of the stored rows for exactly that directed
station pair (no fare is ever derived from a multi-hop route), and its
absence is reported as NotFound by the route. -/
theorem claim7_fare_lookup (fares : List Fare) (fromS toS : ℕ)
    (ft : FareType) (now : ℤ) :
    ((getFare fares fromS toS ft now).isSome ↔
      ∃ f ∈ fares, f.fromStation = fromS ∧ f.toStation = toS ∧
        f.fareType = ft ∧ f.isActive = true ∧
        (f.effectiveTo = none ∨
          ∃ e, f.effectiveTo = some e ∧ now ≤ e)) ∧
    (∀ f, getFare fares fromS toS ft now = some f →
      f ∈ fares ∧ f.fromStation = fromS ∧ f.toStation = toS ∧
        f.fareType = ft ∧ f.isActive = true ∧
        (f.effectiveTo = none ∨
          ∃ e, f.effectiveTo = some e ∧ now ≤ e)) := by
  constructor
  · unfold getFare
    rw [List.find?_isSome]
    constructor
    · rintro ⟨f, hmem, hmatch⟩
      exact ⟨f, hmem, (getFareMatches_iff f fromS toS ft now).mp hmatch⟩
    · rintro ⟨f, hmem, hprops⟩
      exact ⟨f, hmem, (getFareMatches_iff f fromS toS ft now).mpr hprops⟩
  · intro f hsome
    have h1 := List.mem_of_find?_eq_some hsome
    have h2 := List.find?_some hsome
    exact ⟨h1, (getFareMatches_iff f fromS toS ft now).mp h2⟩

/-- C8 counterexample: a deposit of 1/2 — positive, so the claim
requires it to succeed — is rejected by `depositValidation`
(`isFloat({ min: 1 })`) with the store unchanged. -/
theorem claim8_counterexample :
    (0 : ℚ) < 1/2 ∧
    depositMoney sampleDB 1 (1/2) =
      (DepositOutcome.invalidAmount, sampleDB) := by
  constructor
  · norm_num
  · have h : (1/2 : ℚ) < 1 := by norm_num
    simp only [depositMoney, if_pos h]

/-- C8 (amended): Deposit succeeds exactly for amounts of at least 1
(the route validation is `isFloat({ min: 1 })`, not `amount > 0`); on
success the balance increases by exactly the amount with no upper
bound, and a rejected amount leaves the store unchanged. -/
theorem claim8_deposit (db : DB) (uid : ℕ) (amount : ℚ) (u : User)
    (hu : lookupUser db.users uid = some u) :
    (1 ≤ amount →
      depositMoney db uid amount =
        (DepositOutcome.ok (addBalance u amount),
         { db with users := saveUser db.users uid (addBalance u amount) }) ∧
      (addBalance u amount).balance = u.balance + amount ∧
      lookupUser (depositMoney db uid amount).2.users uid =
        some (addBalance u amount)) ∧
    (amount < 1 →
      depositMoney db uid amount = (DepositOutcome.invalidAmount, db)) := by
  constructor
  · intro h1
    have hlt : ¬ (amount < 1) := not_lt.mpr h1
    have heq : depositMoney db uid amount =
        (DepositOutcome.ok (addBalance u amount),
         { db with users := saveUser db.users uid (addBalance u amount) }) := by
      simp only [depositMoney, if_neg hlt, hu]
    refine ⟨heq, rfl, ?_⟩
    rw [heq]
    exact lookupUser_saveUser db.users uid u _ hu
  · intro h1
    simp only [depositMoney, if_pos h1]

/-- Witness for C8 (amended): user 1 of `sampleDB` deposits 250,
raising the balance from 100 to 350. -/
theorem claim8_deposit_witness :
    ((1 : ℚ) ≤ 250 →
      depositMoney sampleDB 1 250 =
        (DepositOutcome.ok (addBalance sampleUser 250),
         { sampleDB with
            users := saveUser sampleDB.users 1 (addBalance sampleUser 250) }) ∧
      (addBalance sampleUser 250).balance = sampleUser.balance + 250 ∧
      lookupUser (depositMoney sampleDB 1 250).2.users 1 =
        some (addBalance sampleUser 250)) ∧
    ((250 : ℚ) < 1 →
      depositMoney sampleDB 1 250 =
        (DepositOutcome.invalidAmount, sampleDB)) :=
  claim8_deposit sampleDB 1 250 sampleUser (by decide)

/-- One step of one debit thread keeps the stored balance non-negative
and preserves `threadOk`: the only step that writes stores
`snapshot - amount`, which its passed check made non-negative. -/
theorem debitStep_preserves (bal : ℚ) (th : DebitThread)
    (hb : 0 ≤ bal) (ht : threadOk th) :
    0 ≤ (debitStep bal th).1 ∧ threadOk (debitStep bal th).2 := by
  cases hpc : th.pc with
  | beforeRead =>
    refine ⟨by simpa [debitStep, hpc] using hb, ?_⟩
    simp [threadOk, debitStep, hpc]
  | beforeCheck =>
    cases hs : th.snapshot with
    | none =>
      refine ⟨by simpa [debitStep, hpc, hs] using hb, ?_⟩
      simp [threadOk, debitStep, hpc, hs]
    | some v =>
      by_cases hv : v < th.amount
      · refine ⟨by simpa [debitStep, hpc, hs, hv] using hb, ?_⟩
        simp [threadOk, debitStep, hpc, hs, hv]
      · refine ⟨by simpa [debitStep, hpc, hs, hv] using hb, ?_⟩
        simp only [threadOk, debitStep, hpc, hs, if_neg hv]
        intro _
        exact ⟨v, rfl, not_lt.mp hv⟩
  | beforeWrite =>
    cases hs : th.snapshot with
    | none =>
      obtain ⟨v, hv2, hle⟩ := ht hpc
      rw [hs] at hv2
      exact absurd hv2 (by simp)
    | some v =>
      obtain ⟨v2, hv2, hle⟩ := ht hpc
      rw [hs] at hv2
      cases Option.some.inj hv2
      refine ⟨?_, ?_⟩
      · simpa [debitStep, hpc, hs] using sub_nonneg.mpr hle
      · simp [threadOk, debitStep, hpc, hs]
  | doneOk =>
    refine ⟨by simpa [debitStep, hpc] using hb, ?_⟩
    simp [threadOk, debitStep, hpc]
  | doneFailed =>
    refine ⟨by simpa [debitStep, hpc] using hb, ?_⟩
    simp [threadOk, debitStep, hpc]

/-- One scheduler choice preserves the race invariant. -/
theorem raceStep_preserves (s : RaceState) (choice : Bool)
    (h : raceOk s) : raceOk (raceStep s choice) := by
  obtain ⟨hb, h1, h2⟩ := h
  cases choice with
  | true =>
    obtain ⟨hb2, ht2⟩ := debitStep_preserves s.bal s.th1 hb h1
    exact ⟨hb2, ht2, h2⟩
  | false =>
    obtain ⟨hb2, ht2⟩ := debitStep_preserves s.bal s.th2 hb h2
    exact ⟨hb2, h1, ht2⟩

/-- Whole schedules preserve the race invariant. -/
theorem runRace_preserves (sched : List Bool) :
    ∀ s : RaceState, raceOk s → raceOk (runRace s sched) := by
  induction sched with
  | nil => intro s h; simpa [runRace] using h
  | cons c rest ih =>
    intro s h
    have := ih (raceStep s c) (raceStep_preserves s c h)
    simpa [runRace, List.foldl_cons] using this

/-- C9 counterexample: the exact interleaving the claim describes —
both balance-paid Issue calls for a user with balance 60 and charge 60
read before either writes — lets both debits be applied (both threads
finish in `doneOk`), yet the final stored balance is 0, which does NOT
violate `balance ≥ 0`: each write stores its snapshot minus the charge,
an absolute value the passed check made non-negative, so the race loses
an update instead of over-debiting the stored field. -/
theorem claim9_counterexample :
    (runRace (initRace 60 60 60) bothReadFirstSched).th1.pc =
      DebitPc.doneOk ∧
    (runRace (initRace 60 60 60) bothReadFirstSched).th2.pc =
      DebitPc.doneOk ∧
    (runRace (initRace 60 60 60) bothReadFirstSched).bal = 0 ∧
    ¬ ((runRace (initRace 60 60 60) bothReadFirstSched).bal < 0) := by
  have h : runRace (initRace 60 60 60) bothReadFirstSched =
      { bal := 60 - 60,
        th1 := { amount := 60, snapshot := some 60, pc := DebitPc.doneOk },
        th2 := { amount := 60, snapshot := some 60, pc := DebitPc.doneOk } } := by
    simp [runRace, bothReadFirstSched, raceStep, debitStep, initRace,
      initDebit]
  rw [h]
  norm_num

/-- C9 (amended): under every interleaving of two concurrent
balance-paid Issue calls the stored balance stays `≥ 0` — each write
stores its own snapshot minus its charge, which its check made
non-negative — so the read-check-write race produces a lost update
(both calls can be accepted while only the last write persists), never
a stored balance below zero. -/
theorem claim9_race_lost_update (bal a1 a2 : ℚ) (sched : List Bool)
    (h : 0 ≤ bal) :
    0 ≤ (runRace (initRace bal a1 a2) sched).bal := by
  have hinit : raceOk (initRace bal a1 a2) := by
    refine ⟨h, ?_, ?_⟩ <;> intro hc <;> simp [initRace, initDebit] at hc
  exact (runRace_preserves sched (initRace bal a1 a2) hinit).1

/-- Witness for C9 (amended): balance 60, two charges of 60, the
both-read-first schedule. -/
theorem claim9_race_lost_update_witness :
    (0 : ℚ) ≤ 60 ∧
    0 ≤ (runRace (initRace 60 60 60) bothReadFirstSched).bal :=
  ⟨by norm_num, claim9_race_lost_update 60 60 60 bothReadFirstSched (by norm_num)⟩

end Metro
